import Mathlib

/-!
Verification of the authentication and authorization core of the
Clothing-Store backend.

The embedding follows the JavaScript sources:
  src/services/authService.js   (AuthService: login, validateToken,
                                 changePassword, refreshToken, logout)
  src/services/accountService.js (AccountService: update, resetPassword,
                                 updateStatus, forceLogout)
  src/utils/jwtUtils.js          (JWTUtils: generateToken, generateAccessToken,
                                 generateRefreshToken, verifyToken, decodeToken)
  src/middlewares/authMiddleware.js (requireRole, requireOwnershipOrRole)
  src/models/accountModel.js     (account schema)

Modelling conventions: the JWT clock is a natural number of seconds; Date
values (refreshTokenExpires, the Mongo query clock) are milliseconds, and the
conversion exp * 1000 appears exactly where the source converts.  The Mongo
collection is a list of account documents; findOne is a first-match search and
document save writes back by _id.  Fallible operations return Except.
-/

namespace ClothingStore

/-- Typed operational errors raised by the core, following
src/errors/businessError.js.  InvalidCredentialsError, TokenExpiredError and
InvalidTokenError take no data in any call site of the core (the message
argument occasionally passed to InvalidTokenError is dropped by its
constructor), so they are bare constructors here. -/
inductive AuthErr where
  | validation (entity msg : String)
  | invalidCredentials
  | invalidToken
  | tokenExpired
  | notFound (entity ident : String)
  | duplicate (entity field value : String)
  | authRequired
  | accessDenied (reason : String)
deriving DecidableEq, Repr

/-- Section of src/config/authConfig.js read by the token utilities: signing
secret, default/access lifetime (jwt.expiresIn, 15m), refresh lifetime
(jwt.refreshTokenExpiresIn, 7d) and issuer.  Lifetimes are seconds. -/
structure JwtConfig where
  secret : String
  expiresIn : Nat
  refreshTokenExpiresIn : Nat
  issuer : String
deriving DecidableEq, Repr

/-- Payload the auth service signs into every token: authService.js builds
tokenPayload with id, username, role and personId; the account schema
declares role as an array of strings. -/
structure JwtPayload where
  id : String
  username : String
  role : List String
  personId : String
deriving DecidableEq, Repr

/-- A structurally valid signed token.  The keyed signature is modelled by
recording the secret used at signing time: verification against a config
succeeds exactly when the secrets coincide, which is the observable behaviour
of an unforgeable MAC. -/
structure SignedToken where
  payload : JwtPayload
  secretSig : String
  issuer : String
  subject : Option String
  iat : Nat
  exp : Nat
deriving DecidableEq, Repr

/-- A presented token string: either structurally valid (decodes to a signed
token) or malformed. -/
inductive Jwt where
  | malformed (raw : String)
  | signed (t : SignedToken)
deriving DecidableEq, Repr

/-- JavaScript String.prototype.toLowerCase over the character list. -/
def jsToLower (s : String) : String :=
  String.mk (s.data.map Char.toLower)

/-- JavaScript String.prototype.trim: strip whitespace from both ends. -/
def jsTrim (s : String) : String :=
  String.mk ((((s.data.dropWhile Char.isWhitespace).reverse).dropWhile
    Char.isWhitespace).reverse)

/-- Modelled from the spec: bcrypt is an external library (node_modules, not
part of the repository).  The model is the idealised salted hash, deterministic
here: compare succeeds exactly on a hash of the same password.  All hashing
call sites pass authConfig.bcrypt.saltRounds, a process-wide constant, so the
salt argument is dropped. -/
def bcryptHash (pw : String) : String :=
  "bcrypt:" ++ pw

/-- Modelled from the spec: bcrypt.compare, see bcryptHash. -/
def bcryptCompare (pw h : String) : Bool :=
  h == bcryptHash pw

/-- Account document, following the schema in src/models/accountModel.js:
username (stored normalized: lowercase, trim), password hash, role (array of
strings), is_active, person reference, and the nullable refresh pair. -/
structure Account where
  _id : String
  username : String
  password : String
  role : List String
  is_active : Bool
  person : String
  refreshToken : Option Jwt
  refreshTokenExpires : Option Nat
deriving DecidableEq, Repr

/-- The accounts collection. -/
abbrev Store := List Account

/-- Model of Mongo findOne: first document satisfying the query predicate. -/
def findOne (s : Store) (p : Account → Bool) : Option Account :=
  s.find? p

/-- Model of document save: write the (possibly modified) document back over
every stored document carrying its _id. -/
def saveAccount (s : Store) (a : Account) : Store :=
  s.map fun b => if b._id == a._id then a else b

/-- Mongo query operator greater-than applied to a nullable Date field and a
Date bound: false on null. -/
def dateGt (field : Option Nat) (bound : Nat) : Bool :=
  match field with
  | some e => decide (bound < e)
  | none => false

/-- The token payload the auth service builds from an account, used verbatim
by both login and refreshToken in src/services/authService.js. -/
def tokenPayloadOf (a : Account) : JwtPayload :=
  { id := a._id
    username := a.username
    role := a.role
    personId := a.person }

namespace JWTUtils

/-- JWTUtils.generateToken (src/utils/jwtUtils.js): signs the payload with the
configured secret and issuer, subject payload.id, and expiry now plus the
requested lifetime (falling back to the configured default when the caller
passes none, mirroring expiresIn or defaultExpiresIn). -/
def generateToken (cfg : JwtConfig) (payload : JwtPayload) (expiresIn : Option Nat)
    (now : Nat) : SignedToken :=
  { payload := payload
    secretSig := cfg.secret
    issuer := cfg.issuer
    subject := some payload.id
    iat := now
    exp := now + expiresIn.getD cfg.expiresIn }

/-- JWTUtils.generateAccessToken: generateToken with the short access
lifetime. -/
def generateAccessToken (cfg : JwtConfig) (payload : JwtPayload) (now : Nat) :
    SignedToken :=
  generateToken cfg payload (some cfg.expiresIn) now

/-- JWTUtils.generateRefreshToken: generateToken with the long refresh
lifetime. -/
def generateRefreshToken (cfg : JwtConfig) (payload : JwtPayload) (now : Nat) :
    SignedToken :=
  generateToken cfg payload (some cfg.refreshTokenExpiresIn) now

/-- JWTUtils.verifyToken.  The wrapper in src/utils/jwtUtils.js delegates to
jwt.verify of the external jsonwebtoken library (not part of the repository)
and maps TokenExpiredError and JsonWebTokenError onto the typed errors.
Modelled from the spec: verify checks signature, issuer, and expiry, with
Expired and Invalid distinguished; a token is expired once now has reached
exp. -/
def verifyToken (cfg : JwtConfig) (now : Nat) : Jwt → Except AuthErr SignedToken
  | Jwt.malformed _ => Except.error AuthErr.invalidToken
  | Jwt.signed t =>
    if t.secretSig ≠ cfg.secret then Except.error AuthErr.invalidToken
    else if t.issuer ≠ cfg.issuer then Except.error AuthErr.invalidToken
    else if t.exp ≤ now then Except.error AuthErr.tokenExpired
    else Except.ok t

/-- JWTUtils.decodeToken: reads the payload without verification (jwt.decode
yields null on a malformed token). -/
def decodeToken : Jwt → Option SignedToken
  | Jwt.malformed _ => none
  | Jwt.signed t => some t

end JWTUtils

namespace AuthService

/-- Result of a successful login, following the object literal returned by
AuthService.login together with the written-back store. -/
structure LoginOk where
  accessToken : SignedToken
  refreshToken : SignedToken
  account : Account
  store : Store
deriving DecidableEq, Repr

/-- AuthService.login (src/services/authService.js): reject blank credentials
with a ValidationError; find an active account under the normalized username;
raise the parameterless InvalidCredentialsError when the account is absent and
again when the bcrypt comparison fails; on success issue the access and
refresh tokens, decode the fresh refresh token for its expiry, and persist the
refresh pair on the account. -/
def login (cfg : JwtConfig) (s : Store) (username password : String) (now : Nat) :
    Except AuthErr LoginOk :=
  if jsTrim username = "" ∨ jsTrim password = "" then
    Except.error (AuthErr.validation "Auth" "Username and password are required")
  else
    match findOne s (fun a => a.username == jsTrim (jsToLower username) && a.is_active) with
    | none => Except.error AuthErr.invalidCredentials
    | some account =>
      if !bcryptCompare password account.password then
        Except.error AuthErr.invalidCredentials
      else
        let accessToken := JWTUtils.generateAccessToken cfg (tokenPayloadOf account) now
        let refreshTok := JWTUtils.generateRefreshToken cfg (tokenPayloadOf account) now
        let refreshTokenExpires :=
          ((JWTUtils.decodeToken (Jwt.signed refreshTok)).map fun d => d.exp * 1000).getD 0
        let account' :=
          { account with
            refreshToken := some (Jwt.signed refreshTok)
            refreshTokenExpires := some refreshTokenExpires }
        Except.ok
          { accessToken := accessToken
            refreshToken := refreshTok
            account := account'
            store := saveAccount s account' }

/-- AuthService.validateToken: verify the token, then re-fetch the account by
the decoded subject id requiring is_active, failing NotFound otherwise. -/
def validateToken (cfg : JwtConfig) (s : Store) (token : Jwt) (now : Nat) :
    Except AuthErr Account :=
  match JWTUtils.verifyToken cfg now token with
  | Except.error e => Except.error e
  | Except.ok decoded =>
    match findOne s (fun a => a._id == decoded.payload.id && a.is_active) with
    | none => Except.error (AuthErr.notFound "Account" decoded.payload.id)
    | some account => Except.ok account

/-- AuthService.changePassword: fetch by id, verify the current password,
validate the new password length, then hash and save.  The source saves only
the new password hash; the stored refresh pair is not touched. -/
def changePassword (s : Store) (accountId currentPassword newPassword : String) :
    Except AuthErr (Account × Store) :=
  match findOne s (fun a => a._id == accountId) with
  | none => Except.error (AuthErr.notFound "Account" accountId)
  | some account =>
    if !bcryptCompare currentPassword account.password then
      Except.error (AuthErr.validation "Auth" "Incorrect current password")
    else if newPassword.length < 6 then
      Except.error (AuthErr.validation "Auth" "Password must be at least 6 characters")
    else
      let account' := { account with password := bcryptHash newPassword }
      Except.ok (account', saveAccount s account')

/-- AuthService.refreshToken: verify the presented token, then findOne the
account whose _id is the decoded id, whose stored refreshToken equals the
presented value exactly, whose stored refreshTokenExpires is strictly in the
future (Mongo query refreshTokenExpires greater-than new Date(), false on the
null pair), and which is active; otherwise InvalidTokenError.  On success
issue a new access token only, writing nothing back. -/
def refreshToken (cfg : JwtConfig) (s : Store) (token : Jwt) (now : Nat) :
    Except AuthErr (Account × SignedToken × Store) :=
  match JWTUtils.verifyToken cfg now token with
  | Except.error e => Except.error e
  | Except.ok decoded =>
    match findOne s (fun a =>
        a._id == decoded.payload.id
        && a.refreshToken == some token
        && dateGt a.refreshTokenExpires (now * 1000)
        && a.is_active) with
    | none => Except.error AuthErr.invalidToken
    | some account =>
      Except.ok (account, JWTUtils.generateAccessToken cfg (tokenPayloadOf account) now, s)

/-- AuthService.logout: fetch by id, then clear both fields of the refresh
pair and save. -/
def logout (s : Store) (userId : String) : Except AuthErr (Account × Store) :=
  match findOne s (fun a => a._id == userId) with
  | none => Except.error (AuthErr.notFound "Account" userId)
  | some account =>
    let account' := { account with refreshToken := none, refreshTokenExpires := none }
    Except.ok (account', saveAccount s account')

end AuthService

namespace AccountService

/-- Update payload for AccountService.update, restricted to the fields the
function handles explicitly (username uniqueness check, password hashing). -/
structure UpdateData where
  username : Option String
  password : Option String
deriving DecidableEq, Repr

/-- AccountService.update: fetch by id; when the username changes require it
unique among the other accounts; when a password is supplied hash it and clear
the refresh pair (source comment: when changing password, invalidate tokens);
assign and save. -/
def update (s : Store) (id : String) (data : UpdateData) :
    Except AuthErr (Account × Store) :=
  match findOne s (fun a => a._id == id) with
  | none => Except.error (AuthErr.notFound "Account" id)
  | some account =>
    let usernameTaken :=
      match data.username with
      | some u => u != account.username && s.any fun b => b._id != id && b.username == u
      | none => false
    if usernameTaken then
      Except.error (AuthErr.duplicate "Account" "username" (data.username.getD ""))
    else
      let base := { account with username := data.username.getD account.username }
      let account' :=
        match data.password with
        | some pw =>
          { base with
            password := bcryptHash pw
            refreshToken := none
            refreshTokenExpires := none }
        | none => base
      Except.ok (account', saveAccount s account')

/-- AccountService.resetPassword: validate the new password length, fetch by
id, hash, and clear the refresh pair (source comment: invalidate tokens after
password change). -/
def resetPassword (s : Store) (id newPassword : String) :
    Except AuthErr (Account × Store) :=
  if newPassword.length < 6 then
    Except.error (AuthErr.validation "Account" "Password must be at least 6 characters")
  else
    match findOne s (fun a => a._id == id) with
    | none => Except.error (AuthErr.notFound "Account" id)
    | some account =>
      let account' :=
        { account with
          password := bcryptHash newPassword
          refreshToken := none
          refreshTokenExpires := none }
      Except.ok (account', saveAccount s account')

/-- AccountService.updateStatus: write the new is_active flag; when
deactivating, additionally clear the refresh pair and save again.  The two
consecutive writes of the source are one net write here. -/
def updateStatus (s : Store) (id : String) (is_active : Bool) :
    Except AuthErr (Account × Store) :=
  match findOne s (fun a => a._id == id) with
  | none => Except.error (AuthErr.notFound "Account" id)
  | some account =>
    if !is_active then
      let account' :=
        { account with
          is_active := is_active
          refreshToken := none
          refreshTokenExpires := none }
      Except.ok (account', saveAccount s account')
    else
      let account' := { account with is_active := is_active }
      Except.ok (account', saveAccount s account')

/-- AccountService.forceLogout: fetch by id, clear the refresh pair, save. -/
def forceLogout (s : Store) (id : String) : Except AuthErr (Account × Store) :=
  match findOne s (fun a => a._id == id) with
  | none => Except.error (AuthErr.notFound "Account" id)
  | some account =>
    let account' := { account with refreshToken := none, refreshTokenExpires := none }
    Except.ok (account', saveAccount s account')

end AccountService

namespace AuthMiddleware

/-- Role field of the identity the middleware reads: the source normalizes
with Array.isArray(req.user.role), accepting a single string or an array of
strings. -/
inductive RoleField where
  | single (r : String)
  | multi (rs : List String)
deriving DecidableEq, Repr

/-- The userRoles normalization of the middleware: a single role becomes a
one-element array, an array is taken as is. -/
def RoleField.toList : RoleField → List String
  | RoleField.single r => [r]
  | RoleField.multi rs => rs

/-- The properties of req.user that the middleware reads: id, personId and
role.  Absent properties (undefined in JavaScript) are none, and the strict
equality of the source makes undefined equal only to undefined. -/
structure ReqUser where
  id : Option String
  personId : Option String
  role : RoleField
deriving DecidableEq, Repr

/-- The req.user value authenticateToken attaches: AuthService.validateToken
returns the mongoose account document, whose virtual id property is the
string form of _id, whose schema has no personId path (reading personId
yields undefined), and whose role is the array of strings of the schema. -/
def attachedUser (a : Account) : ReqUser :=
  { id := some a._id
    personId := none
    role := RoleField.multi a.role }

/-- requireRole (src/middlewares/authMiddleware.js): require a prior
authenticate, normalize the role field, and grant exactly when some held role
is in the allowed set; otherwise AccessDeniedError. -/
def requireRole (allowedRoles : List String) (user : Option ReqUser) :
    Except AuthErr Unit :=
  match user with
  | none => Except.error AuthErr.authRequired
  | some u =>
    let userRoles := u.role.toList
    if userRoles.any (fun r => allowedRoles.contains r) then
      Except.ok ()
    else
      Except.error (AuthErr.accessDenied
        ("Roles required: " ++ String.intercalate ", " allowedRoles))

/-- Default allowed-roles argument of requireOwnershipOrRole. -/
def defaultOwnershipRoles : List String := ["admin"]

/-- requireOwnershipOrRole: require a prior authenticate; grant when some held
role is in the allowed set; otherwise grant when the req.params.id path
parameter is strictly equal to req.user.id or to req.user.personId; otherwise
AccessDeniedError. -/
def requireOwnershipOrRole (allowedRoles : List String) (user : Option ReqUser)
    (resourceId : Option String) : Except AuthErr Unit :=
  match user with
  | none => Except.error AuthErr.authRequired
  | some u =>
    let userRoles := u.role.toList
    if userRoles.any (fun r => allowedRoles.contains r) then
      Except.ok ()
    else if resourceId == u.id || resourceId == u.personId then
      Except.ok ()
    else
      Except.error (AuthErr.accessDenied
        "You are not the owner of the resource nor do you have the necessary roles")

end AuthMiddleware

/-- Success test for an Except result. -/
def exOk {α : Type} : Except AuthErr α → Bool
  | Except.ok _ => true
  | Except.error _ => false

/-- The credential-store invariant of the spec data model: the refresh pair is
set or cleared together. -/
def pairInv (a : Account) : Prop :=
  a.refreshToken = none ↔ a.refreshTokenExpires = none

/-- The pair invariant over every stored account. -/
def storeInv (s : Store) : Prop :=
  ∀ a ∈ s, pairInv a

/-- Concrete configuration used by witnesses and counterexamples. -/
def cfg0 : JwtConfig :=
  { secret := "s3cret"
    expiresIn := 900
    refreshTokenExpiresIn := 604800
    issuer := "clothing-store" }

/-- Concrete token payload of the fixture account. -/
def payload0 : JwtPayload :=
  { id := "a1", username := "alice", role := ["client"], personId := "p1" }

/-- Fixture account with no session. -/
def alice0 : Account :=
  { _id := "a1"
    username := "alice"
    password := bcryptHash "correct-pw"
    role := ["client"]
    is_active := true
    person := "p1"
    refreshToken := none
    refreshTokenExpires := none }

/-- Refresh token of a session opened at time 1000 for the fixture account. -/
def rt0 : SignedToken := JWTUtils.generateRefreshToken cfg0 payload0 1000

/-- The deactivated form of an account: is_active false and the refresh pair
cleared, as written by AccountService.updateStatus with is_active false. -/
def deactivatedOf (c : Account) : Account :=
  { c with is_active := false, refreshToken := none, refreshTokenExpires := none }

/-- The logged-out form of an account: the refresh pair cleared, as written by
logout, forceLogout and the password-reset paths. -/
def clearedOf (c : Account) : Account :=
  { c with refreshToken := none, refreshTokenExpires := none }

/-- The form of an account after login at a given time: the fresh refresh
token and its decoded expiry in milliseconds stored on the account. -/
def sessionedOf (cfg : JwtConfig) (a : Account) (now : Nat) : Account :=
  { a with
    refreshToken :=
      some (Jwt.signed (JWTUtils.generateRefreshToken cfg (tokenPayloadOf a) now))
    refreshTokenExpires :=
      some ((JWTUtils.generateRefreshToken cfg (tokenPayloadOf a) now).exp * 1000) }

/-- Result of the fixture login at time 1000. -/
def loginResult1 : AuthService.LoginOk :=
  { accessToken := JWTUtils.generateAccessToken cfg0 payload0 1000
    refreshToken := rt0
    account := sessionedOf cfg0 alice0 1000
    store := saveAccount [alice0] (sessionedOf cfg0 alice0 1000) }

/-- Result of a second fixture login at time 1001 on the store left by the
first login. -/
def loginResult2 : AuthService.LoginOk :=
  { accessToken := JWTUtils.generateAccessToken cfg0 payload0 1001
    refreshToken := JWTUtils.generateRefreshToken cfg0 payload0 1001
    account := sessionedOf cfg0 (sessionedOf cfg0 alice0 1000) 1001
    store := saveAccount (saveAccount [alice0] (sessionedOf cfg0 alice0 1000))
      (sessionedOf cfg0 (sessionedOf cfg0 alice0 1000) 1001) }

/-- Fixture account holding the session opened at time 1000. -/
def aliceSession : Account :=
  { alice0 with
    refreshToken := some (Jwt.signed rt0)
    refreshTokenExpires := some (rt0.exp * 1000) }

/-- Fixture account for the ownership gate: a client whose person (profile)
reference is per1 and whose account id is acc1. -/
def bob8 : Account :=
  { _id := "acc1"
    username := "bob"
    password := bcryptHash "pw"
    role := ["client"]
    is_active := true
    person := "per1"
    refreshToken := none
    refreshTokenExpires := none }

example : exOk (AuthService.login cfg0 [alice0] "Alice" "correct-pw" 1000) = true := by
  decide

example : AuthService.login cfg0 [alice0] "alice" "correct-pw" 1000
    = Except.ok loginResult1 := by rfl

example : AuthService.login cfg0 loginResult1.store "alice" "correct-pw" 1001
    = Except.ok loginResult2 := by rfl

example :
    (AuthService.refreshToken cfg0 [aliceSession] (Jwt.signed rt0) 2000).toOption.map
      (fun r => r.2.1) = some (JWTUtils.generateAccessToken cfg0 payload0 2000) := by
  decide

lemma verifyToken_ok_iff (cfg : JwtConfig) (now : Nat) (tok : Jwt) (t : SignedToken) :
    JWTUtils.verifyToken cfg now tok = Except.ok t ↔
      tok = Jwt.signed t ∧ t.secretSig = cfg.secret ∧ t.issuer = cfg.issuer ∧
        now < t.exp := by
  cases tok with
  | malformed raw => simp [JWTUtils.verifyToken]
  | signed t' =>
    simp only [JWTUtils.verifyToken, Jwt.signed.injEq]
    split_ifs with h1 h2 h3
    · constructor
      · intro h; cases h
      · rintro ⟨rfl, hs, -, -⟩; exact absurd hs h1
    · constructor
      · intro h; cases h
      · rintro ⟨rfl, -, hi, -⟩; exact absurd hi h2
    · constructor
      · intro h; cases h
      · rintro ⟨rfl, -, -, hlt⟩; omega
    · constructor
      · intro h
        cases h
        push_neg at h1 h2
        exact ⟨rfl, h1, h2, by omega⟩
      · rintro ⟨rfl, -, -, -⟩; rfl

lemma dateGt_eq_true_iff (field : Option Nat) (bound : Nat) :
    dateGt field bound = true ↔ ∃ e, field = some e ∧ bound < e := by
  cases field <;> simp [dateGt]

lemma mem_saveAccount_elim {s : Store} {a c : Account} (hc : c ∈ saveAccount s a) :
    c = a ∨ c ∈ s := by
  unfold saveAccount at hc
  rw [List.mem_map] at hc
  obtain ⟨b, hb, hbc⟩ := hc
  by_cases hid : b._id == a._id
  · simp only [hid, if_true] at hbc; exact Or.inl hbc.symm
  · simp only [hid, if_neg] at hbc
    simp only [Bool.false_eq_true, if_false] at hbc
    exact Or.inr (hbc ▸ hb)

lemma mem_saveAccount_of_id {s : Store} {a c : Account} (hc : c ∈ saveAccount s a)
    (hid : c._id = a._id) : c = a := by
  unfold saveAccount at hc
  rw [List.mem_map] at hc
  obtain ⟨b, hb, hbc⟩ := hc
  by_cases h : b._id == a._id
  · simp only [h, if_true] at hbc; exact hbc.symm
  · simp only [h, Bool.false_eq_true, if_false] at hbc
    subst hbc
    exact absurd (beq_iff_eq.mpr hid) h

lemma self_mem_saveAccount {s : Store} {a a' : Account} (ha : a ∈ s)
    (hid : a'._id = a._id) : a' ∈ saveAccount s a' := by
  unfold saveAccount
  rw [List.mem_map]
  exact ⟨a, ha, by simp [hid]⟩

lemma saveAccount_map_id (s : Store) (a : Account) :
    (saveAccount s a).map Account._id = s.map Account._id := by
  unfold saveAccount
  rw [List.map_map]
  refine List.map_congr_left ?_
  intro b _
  by_cases h : b._id == a._id
  · simp only [Function.comp_apply, h, if_true]
    exact (beq_iff_eq.mp h).symm
  · have hne : ¬ b._id = a._id := by simpa using h
    simp [Function.comp_apply, hne]

lemma storeInv_saveAccount {s : Store} {a : Account} (hs : storeInv s)
    (ha : pairInv a) : storeInv (saveAccount s a) := by
  intro c hc
  rcases mem_saveAccount_elim hc with rfl | hmem
  · exact ha
  · exact hs c hmem

/-- C6: a token whose lifetime has already elapsed but which is otherwise
well-formed, correctly signed and carries the right issuer fails verifyToken
with TokenExpired, never InvalidToken; a malformed, wrongly signed, or
wrong-issuer token fails with InvalidToken — the two failure kinds are always
distinguished. -/
theorem verifyToken_distinguishes_expired_from_invalid (cfg : JwtConfig) (now : Nat) :
    (∀ t : SignedToken, t.secretSig = cfg.secret → t.issuer = cfg.issuer →
      t.exp ≤ now →
      JWTUtils.verifyToken cfg now (Jwt.signed t) = Except.error AuthErr.tokenExpired)
    ∧ (∀ raw : String,
      JWTUtils.verifyToken cfg now (Jwt.malformed raw) = Except.error AuthErr.invalidToken)
    ∧ (∀ t : SignedToken, t.secretSig ≠ cfg.secret ∨ t.issuer ≠ cfg.issuer →
      JWTUtils.verifyToken cfg now (Jwt.signed t) = Except.error AuthErr.invalidToken) := by
  refine ⟨?_, ?_, ?_⟩
  · intro t hs hi he
    simp [JWTUtils.verifyToken, hs, hi, he]
  · intro raw
    rfl
  · intro t h
    rcases h with h | h
    · simp [JWTUtils.verifyToken, h]
    · by_cases hs : t.secretSig = cfg.secret
      · simp [JWTUtils.verifyToken, hs, h]
      · simp [JWTUtils.verifyToken, hs]

/-- Witness for C6: the access token issued at time 1000 has expired by time
2000 and verification reports TokenExpired. -/
theorem verifyToken_distinguishes_expired_from_invalid_witness :
    JWTUtils.verifyToken cfg0 2000
        (Jwt.signed (JWTUtils.generateAccessToken cfg0 payload0 1000))
      = Except.error AuthErr.tokenExpired :=
  (verifyToken_distinguishes_expired_from_invalid cfg0 2000).1
    (JWTUtils.generateAccessToken cfg0 payload0 1000)
    (by decide) (by decide) (by decide)

/-- C7: generating a token over any payload with any lifetime and verifying it
before expiry yields that very token back, its payload (id, username, role,
personId) equal to the input payload and its expiry equal to issuance time
plus the lifetime. -/
theorem token_roundtrip (cfg : JwtConfig) (payload : JwtPayload)
    (lifetime now now' : Nat) (h : now' < now + lifetime) :
    JWTUtils.verifyToken cfg now'
        (Jwt.signed (JWTUtils.generateToken cfg payload (some lifetime) now))
      = Except.ok (JWTUtils.generateToken cfg payload (some lifetime) now)
    ∧ (JWTUtils.generateToken cfg payload (some lifetime) now).payload = payload
    ∧ (JWTUtils.generateToken cfg payload (some lifetime) now).exp = now + lifetime := by
  refine ⟨?_, rfl, rfl⟩
  rw [verifyToken_ok_iff]
  refine ⟨rfl, rfl, rfl, ?_⟩
  simp only [JWTUtils.generateToken, Option.getD_some]
  omega

/-- Witness for C7: round-trip at a concrete payload, lifetime 900 issued at
time 1000 and verified at time 1500. -/
theorem token_roundtrip_witness :
    JWTUtils.verifyToken cfg0 1500
        (Jwt.signed (JWTUtils.generateToken cfg0 payload0 (some 900) 1000))
      = Except.ok (JWTUtils.generateToken cfg0 payload0 (some 900) 1000)
    ∧ (JWTUtils.generateToken cfg0 payload0 (some 900) 1000).payload = payload0
    ∧ (JWTUtils.generateToken cfg0 payload0 (some 900) 1000).exp = 1000 + 900 :=
  token_roundtrip cfg0 payload0 900 1000 1500 (by decide)

/-- C10: the role gates normalize a role field that is either a single string
or an array of strings, and the role check passes exactly when at least one
held role is a member of the allowed set; in requireOwnershipOrRole a passing
role check grants the request outright. -/
theorem role_check_accepts_string_or_array (allowed : List String)
    (u : AuthMiddleware.ReqUser) (rid : Option String) :
    (AuthMiddleware.requireRole allowed (some u) = Except.ok () ↔
      ∃ r ∈ u.role.toList, r ∈ allowed)
    ∧ ((∃ r ∈ u.role.toList, r ∈ allowed) →
      AuthMiddleware.requireOwnershipOrRole allowed (some u) rid = Except.ok ()) := by
  have hiff : ((u.role.toList.any fun r => allowed.contains r) = true) ↔
      ∃ r ∈ u.role.toList, r ∈ allowed := by
    rw [List.any_eq_true]
    simp
  constructor
  · simp only [AuthMiddleware.requireRole]
    split_ifs with h
    · exact ⟨fun _ => hiff.mp h, fun _ => rfl⟩
    · constructor
      · intro hcon; simp at hcon
      · intro hex; exact absurd (hiff.mpr hex) h
  · intro hex
    simp only [AuthMiddleware.requireOwnershipOrRole]
    rw [if_pos (hiff.mpr hex)]

/-- Witness for C10: an identity holding the single-string role admin passes
both gates with the allowed set consisting of admin, even on a foreign
resource id. -/
theorem role_check_accepts_string_or_array_witness :
    AuthMiddleware.requireRole ["admin"]
        (some { id := some "x", personId := none,
                role := AuthMiddleware.RoleField.single "admin" })
      = Except.ok ()
    ∧ AuthMiddleware.requireOwnershipOrRole ["admin"]
        (some { id := some "x", personId := none,
                role := AuthMiddleware.RoleField.single "admin" })
        (some "someone-else")
      = Except.ok () :=
  ⟨(role_check_accepts_string_or_array ["admin"]
      { id := some "x", personId := none,
        role := AuthMiddleware.RoleField.single "admin" } (some "someone-else")).1.mpr
      ⟨"admin", by decide, by decide⟩,
   (role_check_accepts_string_or_array ["admin"]
      { id := some "x", personId := none,
        role := AuthMiddleware.RoleField.single "admin" } (some "someone-else")).2
      ⟨"admin", by decide, by decide⟩⟩

/-- C8, failing evaluation: a client identity attached by authenticateToken
acting on the id of its own person (profile) record is denied by
requireOwnershipOrRole with the default allowed set, because the attached
account document carries the profile reference under person while the gate
reads the non-existent personId property; the spec and the inline comment of the gate
say profile-id ownership grants. -/
theorem ownership_gate_ignores_profile_id :
    bob8.person = "per1"
    ∧ AuthMiddleware.requireOwnershipOrRole AuthMiddleware.defaultOwnershipRoles
        (some (AuthMiddleware.attachedUser bob8)) (some "per1")
      = Except.error (AuthErr.accessDenied
          "You are not the owner of the resource nor do you have the necessary roles") := by
  exact ⟨rfl, rfl⟩

/-- C4: with non-blank credentials, login fails with the identical
parameterless InvalidCredentials error both when no active account under the
normalized username exists and when the account exists but the bcrypt
comparison fails, so the two cases are indistinguishable to the caller. -/
theorem login_failure_indistinguishable (cfg : JwtConfig) (s : Store) (u p : String)
    (now : Nat) (hu : jsTrim u ≠ "") (hp : jsTrim p ≠ "") :
    (findOne s (fun b => b.username == jsTrim (jsToLower u) && b.is_active) = none →
      AuthService.login cfg s u p now = Except.error AuthErr.invalidCredentials)
    ∧ (∀ a, findOne s (fun b => b.username == jsTrim (jsToLower u) && b.is_active)
        = some a →
      bcryptCompare p a.password = false →
      AuthService.login cfg s u p now = Except.error AuthErr.invalidCredentials) := by
  have hcond : ¬ (jsTrim u = "" ∨ jsTrim p = "") := by tauto
  constructor
  · intro hf
    simp only [AuthService.login, if_neg hcond, hf]
  · intro a hf hc
    simp only [AuthService.login, if_neg hcond, hf, hc]
    simp

/-- Witness for C4: the ghost-user case and the wrong-password case at the
concrete store produce the very same error value. -/
theorem login_failure_indistinguishable_witness :
    AuthService.login cfg0 [alice0] "ghost" "anything" 5
      = Except.error AuthErr.invalidCredentials
    ∧ AuthService.login cfg0 [alice0] "alice" "wrong" 5
      = Except.error AuthErr.invalidCredentials :=
  ⟨(login_failure_indistinguishable cfg0 [alice0] "ghost" "anything" 5
      (by decide) (by decide)).1 (by decide),
   (login_failure_indistinguishable cfg0 [alice0] "alice" "wrong" 5
      (by decide) (by decide)).2 alice0 (by decide) (by decide)⟩

/-- C1, failing evaluation: changePassword succeeds at an account holding a
live refresh pair with both the current password and a valid new password, yet
the saved account still carries the old refresh pair — the source hashes and
saves the password only and never clears refreshToken or refreshTokenExpires,
while logout does clear both. -/
theorem changePassword_leaves_refresh_pair :
    (AuthService.changePassword [aliceSession] "a1" "correct-pw" "brand-new-pw").toOption.map
        (fun r => (r.1.refreshToken, r.1.refreshTokenExpires))
      = some (some (Jwt.signed rt0), some (rt0.exp * 1000)) := by
  decide

lemma refreshPred_iff (a : Account) (tok : Jwt) (idStr : String) (now : Nat) :
    (a._id == idStr && a.refreshToken == some tok
        && dateGt a.refreshTokenExpires (now * 1000) && a.is_active) = true ↔
      a._id = idStr ∧ a.refreshToken = some tok
        ∧ (∃ e, a.refreshTokenExpires = some e ∧ now * 1000 < e)
        ∧ a.is_active = true := by
  simp [Bool.and_eq_true, dateGt_eq_true_iff, and_assoc]

lemma refreshToken_exOk_iff (cfg : JwtConfig) (s : Store) (tok : Jwt) (now : Nat) :
    exOk (AuthService.refreshToken cfg s tok now) = true ↔
      ∃ t : SignedToken, tok = Jwt.signed t ∧ t.secretSig = cfg.secret
        ∧ t.issuer = cfg.issuer ∧ now < t.exp
        ∧ ∃ a ∈ s, a._id = t.payload.id ∧ a.refreshToken = some tok
            ∧ (∃ e, a.refreshTokenExpires = some e ∧ now * 1000 < e)
            ∧ a.is_active = true := by
  unfold AuthService.refreshToken
  cases hv : JWTUtils.verifyToken cfg now tok with
  | error e =>
    simp only [exOk]
    constructor
    · intro h; cases h
    · rintro ⟨t, h1, h2, h3, h4, -⟩
      have hok : JWTUtils.verifyToken cfg now tok = Except.ok t :=
        (verifyToken_ok_iff cfg now tok t).mpr ⟨h1, h2, h3, h4⟩
      rw [hv] at hok
      cases hok
  | ok t' =>
    obtain ⟨h1, h2, h3, h4⟩ := (verifyToken_ok_iff cfg now tok t').mp hv
    cases hf : findOne s (fun a =>
        a._id == t'.payload.id && a.refreshToken == some tok
          && dateGt a.refreshTokenExpires (now * 1000) && a.is_active) with
    | none =>
      simp only [findOne] at hf
      simp only [exOk, findOne, hf]
      constructor
      · intro h; cases h
      · rintro ⟨t, ht1, ht2, ht3, ht4, a, ha, hid, hrt, he, hact⟩
        have hsig : Jwt.signed t' = Jwt.signed t := h1 ▸ ht1
        cases hsig
        have hpred := (List.find?_eq_none.mp hf) a ha
        exact (hpred ((refreshPred_iff a tok t'.payload.id now).mpr
          ⟨hid, hrt, he, hact⟩)).elim
    | some a =>
      simp only [findOne] at hf
      simp only [exOk, findOne, hf]
      have hpa0 := List.find?_some hf
      have hpa : (a._id == t'.payload.id && a.refreshToken == some tok
          && dateGt a.refreshTokenExpires (now * 1000) && a.is_active) = true := hpa0
      obtain ⟨hid, hrt, he, hact⟩ := (refreshPred_iff a tok t'.payload.id now).mp hpa
      constructor
      · intro _
        exact ⟨t', h1, h2, h3, h4,
          a, List.mem_of_find?_eq_some hf, hid, hrt, he, hact⟩
      · intro _; trivial

/-- C2: refreshToken succeeds exactly when the presented token verifies
(signature, issuer, expiry), a stored active account carries the decoded
subject id with a stored refreshToken equal to the presented value and a
stored refreshTokenExpires still in the future; on success it returns a newly
issued access token only and leaves the store, hence every stored refresh
pair, unchanged.  A correctly signed token from an earlier session differs
from the stored value and therefore fails. -/
theorem refreshToken_succeeds_iff (cfg : JwtConfig) (s : Store) (tok : Jwt) (now : Nat) :
    (exOk (AuthService.refreshToken cfg s tok now) = true ↔
      ∃ t : SignedToken, tok = Jwt.signed t ∧ t.secretSig = cfg.secret
        ∧ t.issuer = cfg.issuer ∧ now < t.exp
        ∧ ∃ a ∈ s, a._id = t.payload.id ∧ a.refreshToken = some tok
            ∧ (∃ e, a.refreshTokenExpires = some e ∧ now * 1000 < e)
            ∧ a.is_active = true)
    ∧ (∀ a newTok s', AuthService.refreshToken cfg s tok now = Except.ok (a, newTok, s') →
      newTok = JWTUtils.generateAccessToken cfg (tokenPayloadOf a) now ∧ s' = s) := by
  refine ⟨refreshToken_exOk_iff cfg s tok now, ?_⟩
  intro a newTok s' h
  unfold AuthService.refreshToken at h
  cases hv : JWTUtils.verifyToken cfg now tok with
  | error e =>
    rw [hv] at h
    have h2 : (Except.error e : Except AuthErr (Account × SignedToken × Store))
        = Except.ok (a, newTok, s') := h
    cases h2
  | ok t' =>
    rw [hv] at h
    have h2 : (match findOne s (fun b =>
        b._id == t'.payload.id && b.refreshToken == some tok
          && dateGt b.refreshTokenExpires (now * 1000) && b.is_active) with
      | none => Except.error AuthErr.invalidToken
      | some account =>
        Except.ok (account, JWTUtils.generateAccessToken cfg (tokenPayloadOf account) now, s))
        = Except.ok (a, newTok, s') := h
    cases hf : findOne s (fun b =>
        b._id == t'.payload.id && b.refreshToken == some tok
          && dateGt b.refreshTokenExpires (now * 1000) && b.is_active) with
    | none =>
      rw [hf] at h2
      cases h2
    | some b =>
      rw [hf] at h2
      cases h2
      exact ⟨rfl, rfl⟩

/-- Witness for C2: the stored session token presented at time 2000 passes all
four conditions and refreshes. -/
theorem refreshToken_succeeds_iff_witness :
    exOk (AuthService.refreshToken cfg0 [aliceSession] (Jwt.signed rt0) 2000) = true :=
  (refreshToken_succeeds_iff cfg0 [aliceSession] (Jwt.signed rt0) 2000).1.mpr
    ⟨rt0, rfl, rfl, rfl, by decide,
      aliceSession, by decide, by decide, rfl,
      ⟨rt0.exp * 1000, rfl, by decide⟩, rfl⟩

/-- C5: once the token verifies, validateToken re-fetches the account by the
decoded subject id requiring is_active and returns that live account; when no
such active account exists it fails with NotFound.  Consequently, after
deactivating the subject account through AccountService.updateStatus, a
still-unexpired previously issued token is rejected with NotFound. -/
theorem validateToken_requires_live_account (cfg : JwtConfig) (s : Store) (tok : Jwt)
    (now : Nat) (t : SignedToken)
    (hv : JWTUtils.verifyToken cfg now tok = Except.ok t) :
    (∀ a, findOne s (fun b => b._id == t.payload.id && b.is_active) = some a →
      AuthService.validateToken cfg s tok now = Except.ok a)
    ∧ (findOne s (fun b => b._id == t.payload.id && b.is_active) = none →
      AuthService.validateToken cfg s tok now
        = Except.error (AuthErr.notFound "Account" t.payload.id))
    ∧ (∀ b s', AccountService.updateStatus s t.payload.id false = Except.ok (b, s') →
      AuthService.validateToken cfg s' tok now
        = Except.error (AuthErr.notFound "Account" t.payload.id)) := by
  refine ⟨?_, ?_, ?_⟩
  · intro a hf
    unfold AuthService.validateToken
    rw [hv]
    show (match findOne s (fun b => b._id == t.payload.id && b.is_active) with
      | none => Except.error (AuthErr.notFound "Account" t.payload.id)
      | some account => Except.ok account) = Except.ok a
    rw [hf]
  · intro hf
    unfold AuthService.validateToken
    rw [hv]
    show (match findOne s (fun b => b._id == t.payload.id && b.is_active) with
      | none => Except.error (AuthErr.notFound "Account" t.payload.id)
      | some account => Except.ok account)
        = Except.error (AuthErr.notFound "Account" t.payload.id)
    rw [hf]
  · intro b s' hu
    unfold AccountService.updateStatus at hu
    cases hfc : findOne s (fun a => a._id == t.payload.id) with
    | none =>
      rw [hfc] at hu
      cases hu
    | some c =>
      rw [hfc] at hu
      have hcid0 := List.find?_some hfc
      have hcid : c._id = t.payload.id := by simpa using hcid0
      have hu2 : Except.ok (deactivatedOf c, saveAccount s (deactivatedOf c))
          = Except.ok (b, s') := hu
      cases hu2
      unfold AuthService.validateToken
      rw [hv]
      have hnone : findOne (saveAccount s (deactivatedOf c))
          (fun b2 => b2._id == t.payload.id && b2.is_active) = none := by
        unfold findOne
        apply List.find?_eq_none.mpr
        intro x hx hxp
        have hxid : x._id = t.payload.id := by
          have := (Bool.and_eq_true _ _).mp hxp
          simpa using this.1
        have hxact : x.is_active = true := by
          have := (Bool.and_eq_true _ _).mp hxp
          simpa using this.2
        have hxc : x = deactivatedOf c :=
          mem_saveAccount_of_id hx (by rw [hxid, ← hcid]; rfl)
        rw [hxc] at hxact
        cases hxact
      show (match findOne (saveAccount s (deactivatedOf c))
          (fun b2 => b2._id == t.payload.id && b2.is_active) with
        | none => Except.error (AuthErr.notFound "Account" t.payload.id)
        | some account => Except.ok account)
          = Except.error (AuthErr.notFound "Account" t.payload.id)
      rw [hnone]

/-- Witness for C5: the access token issued at time 1000 is still unexpired at
time 1500, yet after deactivating its account validateToken rejects it with
NotFound. -/
theorem validateToken_requires_live_account_witness :
    AuthService.validateToken cfg0 (saveAccount [alice0] (deactivatedOf alice0))
        (Jwt.signed (JWTUtils.generateAccessToken cfg0 payload0 1000)) 1500
      = Except.error (AuthErr.notFound "Account" "a1") :=
  (validateToken_requires_live_account cfg0 [alice0]
      (Jwt.signed (JWTUtils.generateAccessToken cfg0 payload0 1000)) 1500
      (JWTUtils.generateAccessToken cfg0 payload0 1000) (by rfl)).2.2
    (deactivatedOf alice0) (saveAccount [alice0] (deactivatedOf alice0)) (by rfl)

lemma login_ok_shape {cfg : JwtConfig} {s : Store} {u p : String} {now : Nat}
    {r : AuthService.LoginOk} (h : AuthService.login cfg s u p now = Except.ok r) :
    ∃ a, findOne s (fun b => b.username == jsTrim (jsToLower u) && b.is_active) = some a
      ∧ r.refreshToken = JWTUtils.generateRefreshToken cfg (tokenPayloadOf a) now
      ∧ r.account = sessionedOf cfg a now
      ∧ r.store = saveAccount s (sessionedOf cfg a now) := by
  unfold AuthService.login at h
  split at h
  · cases h
  · split at h
    · cases h
    · rename_i a hf
      split at h
      · cases h
      · cases h
        exact ⟨a, hf, rfl, rfl, rfl⟩

lemma refreshToken_ok_store {cfg : JwtConfig} {s : Store} {tok : Jwt} {now : Nat}
    {a : Account} {tk : SignedToken} {s' : Store}
    (h : AuthService.refreshToken cfg s tok now = Except.ok (a, tk, s')) : s' = s := by
  unfold AuthService.refreshToken at h
  cases hv : JWTUtils.verifyToken cfg now tok with
  | error e =>
    rw [hv] at h
    have h2 : (Except.error e : Except AuthErr (Account × SignedToken × Store))
        = Except.ok (a, tk, s') := h
    cases h2
  | ok t' =>
    rw [hv] at h
    have h2 : (match findOne s (fun b =>
        b._id == t'.payload.id && b.refreshToken == some tok
          && dateGt b.refreshTokenExpires (now * 1000) && b.is_active) with
      | none => Except.error AuthErr.invalidToken
      | some account =>
        Except.ok (account, JWTUtils.generateAccessToken cfg (tokenPayloadOf account) now, s))
        = Except.ok (a, tk, s') := h
    cases hf : findOne s (fun b =>
        b._id == t'.payload.id && b.refreshToken == some tok
          && dateGt b.refreshTokenExpires (now * 1000) && b.is_active) with
    | none =>
      rw [hf] at h2
      cases h2
    | some b =>
      rw [hf] at h2
      cases h2
      rfl

lemma logout_ok_shape {s : Store} {id : String} {a : Account} {s' : Store}
    (h : AuthService.logout s id = Except.ok (a, s')) :
    a.refreshToken = none ∧ a.refreshTokenExpires = none ∧ s' = saveAccount s a := by
  unfold AuthService.logout at h
  cases hf : findOne s (fun b => b._id == id) with
  | none =>
    rw [hf] at h
    cases h
  | some c =>
    rw [hf] at h
    have h2 : Except.ok (clearedOf c, saveAccount s (clearedOf c))
        = Except.ok (a, s') := h
    cases h2
    exact ⟨rfl, rfl, rfl⟩

lemma forceLogout_ok_shape {s : Store} {id : String} {a : Account} {s' : Store}
    (h : AccountService.forceLogout s id = Except.ok (a, s')) :
    a.refreshToken = none ∧ a.refreshTokenExpires = none ∧ s' = saveAccount s a := by
  unfold AccountService.forceLogout at h
  cases hf : findOne s (fun b => b._id == id) with
  | none =>
    rw [hf] at h
    cases h
  | some c =>
    rw [hf] at h
    have h2 : Except.ok (clearedOf c, saveAccount s (clearedOf c))
        = Except.ok (a, s') := h
    cases h2
    exact ⟨rfl, rfl, rfl⟩

lemma resetPassword_ok_shape {s : Store} {id npw : String} {a : Account} {s' : Store}
    (h : AccountService.resetPassword s id npw = Except.ok (a, s')) :
    a.refreshToken = none ∧ a.refreshTokenExpires = none ∧ s' = saveAccount s a := by
  unfold AccountService.resetPassword at h
  by_cases hlen : npw.length < 6
  · rw [if_pos hlen] at h
    cases h
  · rw [if_neg hlen] at h
    cases hf : findOne s (fun b => b._id == id) with
    | none =>
      rw [hf] at h
      cases h
    | some c =>
      rw [hf] at h
      have h2 : Except.ok ({ clearedOf c with password := bcryptHash npw },
          saveAccount s { clearedOf c with password := bcryptHash npw })
          = Except.ok (a, s') := h
      cases h2
      exact ⟨rfl, rfl, rfl⟩

lemma changePassword_ok_shape {s : Store} {id cur npw : String} {a : Account} {s' : Store}
    (h : AuthService.changePassword s id cur npw = Except.ok (a, s')) :
    ∃ c, findOne s (fun b => b._id == id) = some c
      ∧ a.refreshToken = c.refreshToken
      ∧ a.refreshTokenExpires = c.refreshTokenExpires
      ∧ s' = saveAccount s a := by
  unfold AuthService.changePassword at h
  split at h
  · cases h
  · rename_i c hf
    split at h
    · cases h
    · split at h
      · cases h
      · cases h
        exact ⟨c, hf, rfl, rfl, rfl⟩

lemma update_ok_shape {s : Store} {id : String} {d : AccountService.UpdateData}
    {a : Account} {s' : Store}
    (h : AccountService.update s id d = Except.ok (a, s')) :
    ∃ c, findOne s (fun b => b._id == id) = some c
      ∧ s' = saveAccount s a
      ∧ ((a.refreshToken = none ∧ a.refreshTokenExpires = none)
        ∨ (a.refreshToken = c.refreshToken
          ∧ a.refreshTokenExpires = c.refreshTokenExpires)) := by
  unfold AccountService.update at h
  split at h
  · cases h
  · rename_i c hf
    dsimp only [] at h
    by_cases htaken : (match d.username with
        | some un => un != c.username && s.any fun b => b._id != id && b.username == un
        | none => false) = true
    · rw [if_pos htaken] at h
      cases h
    · rw [if_neg htaken] at h
      cases hpw : d.password with
      | none =>
        rw [hpw] at h
        cases h
        exact ⟨c, hf, rfl, Or.inr ⟨rfl, rfl⟩⟩
      | some pw =>
        rw [hpw] at h
        cases h
        exact ⟨c, hf, rfl, Or.inl ⟨rfl, rfl⟩⟩

lemma updateStatus_ok_shape {s : Store} {id : String} {act : Bool}
    {a : Account} {s' : Store}
    (h : AccountService.updateStatus s id act = Except.ok (a, s')) :
    ∃ c, findOne s (fun b => b._id == id) = some c
      ∧ s' = saveAccount s a
      ∧ ((a.refreshToken = none ∧ a.refreshTokenExpires = none)
        ∨ (a.refreshToken = c.refreshToken
          ∧ a.refreshTokenExpires = c.refreshTokenExpires)) := by
  unfold AccountService.updateStatus at h
  cases hf : findOne s (fun b => b._id == id) with
  | none =>
    rw [hf] at h
    cases h
  | some c =>
    rw [hf] at h
    cases act with
    | false =>
      have h2 : Except.ok (deactivatedOf c, saveAccount s (deactivatedOf c))
          = Except.ok (a, s') := h
      cases h2
      exact ⟨c, rfl, rfl, Or.inl ⟨rfl, rfl⟩⟩
    | true =>
      have h2 : Except.ok (({ c with is_active := true } : Account),
          saveAccount s { c with is_active := true })
          = Except.ok (a, s') := h
      cases h2
      exact ⟨c, rfl, rfl, Or.inr ⟨rfl, rfl⟩⟩

/-- C9: every operation touching the refresh pair preserves the invariant
that refreshToken is null exactly when refreshTokenExpires is null: login
(sets both), refreshToken (writes nothing), logout, forceLogout,
resetPassword (clear both), changePassword (touches neither), update (clears
both on a password change, touches neither otherwise) and updateStatus
(clears both on deactivation). -/
theorem refresh_pair_cleared_together (cfg : JwtConfig) (s : Store)
    (hinv : storeInv s) :
    (∀ u p now r, AuthService.login cfg s u p now = Except.ok r → storeInv r.store)
    ∧ (∀ tok now a tk s', AuthService.refreshToken cfg s tok now = Except.ok (a, tk, s') →
      storeInv s')
    ∧ (∀ id a s', AuthService.logout s id = Except.ok (a, s') → storeInv s')
    ∧ (∀ id a s', AccountService.forceLogout s id = Except.ok (a, s') → storeInv s')
    ∧ (∀ id npw a s', AccountService.resetPassword s id npw = Except.ok (a, s') →
      storeInv s')
    ∧ (∀ id cur npw a s', AuthService.changePassword s id cur npw = Except.ok (a, s') →
      storeInv s')
    ∧ (∀ id d a s', AccountService.update s id d = Except.ok (a, s') → storeInv s')
    ∧ (∀ id act a s', AccountService.updateStatus s id act = Except.ok (a, s') →
      storeInv s') := by
  refine ⟨?_, ?_, ?_, ?_, ?_, ?_, ?_, ?_⟩
  · intro u p now r h
    obtain ⟨a, -, -, -, hst⟩ := login_ok_shape h
    rw [hst]
    refine storeInv_saveAccount hinv ?_
    unfold pairInv sessionedOf
    simp
  · intro tok now a tk s' h
    rw [refreshToken_ok_store h]
    exact hinv
  · intro id a s' h
    obtain ⟨h1, h2, hst⟩ := logout_ok_shape h
    rw [hst]
    refine storeInv_saveAccount hinv ?_
    unfold pairInv
    rw [h1, h2]
    exact ⟨fun _ => rfl, fun _ => rfl⟩
  · intro id a s' h
    obtain ⟨h1, h2, hst⟩ := forceLogout_ok_shape h
    rw [hst]
    refine storeInv_saveAccount hinv ?_
    unfold pairInv
    rw [h1, h2]
    exact ⟨fun _ => rfl, fun _ => rfl⟩
  · intro id npw a s' h
    obtain ⟨h1, h2, hst⟩ := resetPassword_ok_shape h
    rw [hst]
    refine storeInv_saveAccount hinv ?_
    unfold pairInv
    rw [h1, h2]
    exact ⟨fun _ => rfl, fun _ => rfl⟩
  · intro id cur npw a s' h
    obtain ⟨c, hf, h1, h2, hst⟩ := changePassword_ok_shape h
    rw [hst]
    refine storeInv_saveAccount hinv ?_
    unfold pairInv
    rw [h1, h2]
    exact hinv c (List.mem_of_find?_eq_some hf)
  · intro id d a s' h
    obtain ⟨c, hf, hst, hcases⟩ := update_ok_shape h
    rw [hst]
    refine storeInv_saveAccount hinv ?_
    unfold pairInv
    rcases hcases with ⟨h1, h2⟩ | ⟨h1, h2⟩
    · rw [h1, h2]
      exact ⟨fun _ => rfl, fun _ => rfl⟩
    · rw [h1, h2]
      exact hinv c (List.mem_of_find?_eq_some hf)
  · intro id act a s' h
    obtain ⟨c, hf, hst, hcases⟩ := updateStatus_ok_shape h
    rw [hst]
    refine storeInv_saveAccount hinv ?_
    unfold pairInv
    rcases hcases with ⟨h1, h2⟩ | ⟨h1, h2⟩
    · rw [h1, h2]
      exact ⟨fun _ => rfl, fun _ => rfl⟩
    · rw [h1, h2]
      exact hinv c (List.mem_of_find?_eq_some hf)

lemma saveAccount_map_username {s : Store} {a a' : Account}
    (hids : (s.map Account._id).Nodup) (ha : a ∈ s) (hid : a'._id = a._id)
    (hname : a'.username = a.username) :
    (saveAccount s a').map Account.username = s.map Account.username := by
  unfold saveAccount
  rw [List.map_map]
  refine List.map_congr_left ?_
  intro b hb
  by_cases h : b._id == a'._id
  · have hb_eq_a : b = a :=
      List.inj_on_of_nodup_map hids hb ha (by rw [beq_iff_eq.mp h, hid])
    simp only [Function.comp_apply, h, if_true]
    rw [hname, hb_eq_a]
  · have hne : ¬ b._id = a'._id := by simpa using h
    simp [Function.comp_apply, hne]

/-- C3, counterexample: two logins for the same account at the same instant
issue the identical refresh token (signing is deterministic and payload,
issued-at and expiry coincide), so after the second login a refreshToken call
presenting the refresh token of the first login still succeeds — the claim is
false for same-instant logins. -/
theorem second_login_same_instant_old_token_refreshes :
    exOk (AuthService.login cfg0 [alice0] "alice" "correct-pw" 1000 >>= fun r1 =>
      AuthService.login cfg0 r1.store "alice" "correct-pw" 1000 >>= fun r2 =>
      AuthService.refreshToken cfg0 r2.store (Jwt.signed r1.refreshToken) 2000)
    = true := by
  decide

/-- C3, amended: when the two logins issue different refresh tokens — in
particular whenever they happen at different issuance times — the second
successful login overwrites the stored refresh pair and a refreshToken call
presenting the refresh token of the first login afterwards fails.  The store is
assumed to carry the unique Mongo indexes on _id and username. -/
theorem second_login_invalidates_previous_refresh (cfg : JwtConfig) (s : Store)
    (u p : String) (n1 n2 n3 : Nat) (r1 r2 : AuthService.LoginOk)
    (hids : (s.map Account._id).Nodup)
    (husers : (s.map Account.username).Nodup)
    (h1 : AuthService.login cfg s u p n1 = Except.ok r1)
    (h2 : AuthService.login cfg r1.store u p n2 = Except.ok r2)
    (hne : n1 ≠ n2) :
    exOk (AuthService.refreshToken cfg r2.store (Jwt.signed r1.refreshToken) n3)
      = false := by
  obtain ⟨a, hfa, hr1tok, hacc1, hst1⟩ := login_ok_shape h1
  obtain ⟨b, hfb, hr2tok, hacc2, hst2⟩ := login_ok_shape h2
  have hamem : a ∈ s := List.mem_of_find?_eq_some hfa
  have h0a := List.find?_some hfa
  have hpa : (a.username == jsTrim (jsToLower u) && a.is_active) = true := h0a
  have hauser : a.username = jsTrim (jsToLower u) := by
    have := (Bool.and_eq_true _ _).mp hpa
    simpa using this.1
  have hbmem : b ∈ r1.store := List.mem_of_find?_eq_some hfb
  have h0b := List.find?_some hfb
  have hpb : (b.username == jsTrim (jsToLower u) && b.is_active) = true := h0b
  have hbuser : b.username = jsTrim (jsToLower u) := by
    have := (Bool.and_eq_true _ _).mp hpb
    simpa using this.1
  have hmapuser : (r1.store.map Account.username) = s.map Account.username := by
    rw [hst1]
    exact saveAccount_map_username hids hamem rfl rfl
  have husers1 : (r1.store.map Account.username).Nodup := by
    rw [hmapuser]
    exact husers
  have hacc1mem : r1.account ∈ r1.store := by
    rw [hst1, hacc1]
    exact self_mem_saveAccount hamem rfl
  have hb_eq : b = r1.account := by
    refine List.inj_on_of_nodup_map husers1 hbmem hacc1mem ?_
    rw [hbuser, hacc1]
    exact hauser.symm
  have hbid : b._id = a._id := by
    rw [hb_eq, hacc1]
    rfl
  cases hE : exOk (AuthService.refreshToken cfg r2.store (Jwt.signed r1.refreshToken) n3) with
  | false => rfl
  | true =>
    exfalso
    obtain ⟨t, htok, -, -, -, c, hcmem, hcid, hcrt, -, -⟩ :=
      (refreshToken_exOk_iff cfg r2.store (Jwt.signed r1.refreshToken) n3).mp hE
    injection htok with hinj
    have hcid' : c._id = a._id := by
      rw [hcid, ← hinj, hr1tok]
      rfl
    have hsid : (sessionedOf cfg b n2)._id = a._id := by
      have hsb : (sessionedOf cfg b n2)._id = b._id := rfl
      rw [hsb]
      exact hbid
    have hcmem' : c ∈ saveAccount r1.store (sessionedOf cfg b n2) := hst2 ▸ hcmem
    have hc : c = sessionedOf cfg b n2 := by
      refine mem_saveAccount_of_id hcmem' ?_
      rw [hcid']
      exact hsid.symm
    have hcrt2 : c.refreshToken
        = some (Jwt.signed (JWTUtils.generateRefreshToken cfg (tokenPayloadOf b) n2)) := by
      rw [hc]
      rfl
    have hclash : some (Jwt.signed r1.refreshToken)
        = some (Jwt.signed (JWTUtils.generateRefreshToken cfg (tokenPayloadOf b) n2)) := by
      rw [← hcrt, hcrt2]
    injection hclash with hclash1
    injection hclash1 with hclash2
    have htoks : JWTUtils.generateRefreshToken cfg (tokenPayloadOf a) n1
        = JWTUtils.generateRefreshToken cfg (tokenPayloadOf b) n2 := by
      rw [← hr1tok]
      exact hclash2
    have hiat : n1 = n2 := congrArg SignedToken.iat htoks
    exact hne hiat

/-- Witness for the amended C3: with the second login one second after the
first, the refresh token of the first login no longer refreshes. -/
theorem second_login_invalidates_previous_refresh_witness :
    exOk (AuthService.refreshToken cfg0 loginResult2.store
        (Jwt.signed loginResult1.refreshToken) 2000) = false :=
  second_login_invalidates_previous_refresh cfg0 [alice0] "alice" "correct-pw"
    1000 1001 2000 loginResult1 loginResult2 (by decide) (by decide)
    (by rfl) (by rfl) (by decide)

/-- Witness for C9: on the single-account store holding a live session the
invariant holds and is preserved by a concrete logout. -/
theorem refresh_pair_cleared_together_witness :
    storeInv (saveAccount [aliceSession] (clearedOf aliceSession)) :=
  (refresh_pair_cleared_together cfg0 [aliceSession]
      (by unfold storeInv pairInv; decide)).2.2.1
    "a1" (clearedOf aliceSession) (saveAccount [aliceSession] (clearedOf aliceSession))
    (by rfl)

end ClothingStore
